import Mathlib

/-
Verification of the platform-stats retrieval and caching path of the
Dash-3 social-media analytics dashboard.

This file is a shallow embedding of the server core:
  * `MemStorage` (src/unnamed/part_000): the in-memory store holding
    users, per-user API credential sets, subscriptions and the cache of
    platform statistics keyed by the string "userId:platform:days".
  * the platform API adapters and their factory
    (src/server/services/apiServices.ts): one adapter per platform;
    three of the four are stubs that throw immediately, and every
    adapter's catch block falls back to `storage.getPlatformStats`.
  * the HTTP request layer (routes): GET /api/stats, GET /api/posts,
    POST /api/apikeys, and the `Number(q) || default` query parsing.

Modelling conventions:
  * JS `Map` objects are association lists where `set` overwrites an
    existing key in place and otherwise appends (JS insertion order).
  * JS numbers carrying counters or growth percentages are rationals
    (ℚ); integer counters on posts are `Int` (float rounding of the
    exact decimal literals involved is abstracted away).
  * ISO date strings are encoded as their epoch-day number (`Int`);
    every seeded date is at midnight UTC and the only date arithmetic
    performed by the code is whole-day subtraction, so the encoding is
    order- and arithmetic-faithful.  `new Date().toISOString()` is a
    `now : Int` parameter threaded through the functions.
  * `async` functions that can loop through the mutual recursion
    between the store and the adapters take a `fuel : Nat` argument and
    return `none` when the fuel runs out; a call that returns `none`
    for every fuel models divergence (the promise never settles).
  * thrown JS exceptions are `Except String`; the YouTube adapter's
    outbound network calls are an oracle parameter
    `oracle : Int → String → Int → Except String ExtendedSocialStats`
    giving, per (userId, apiKey, days), the outcome of its try block.
-/

/-! ## JS `Map` as an insertion-ordered association list -/

/-- `Map.get(k)`: first (and, under the `set` discipline, only) binding. -/
def mapGet {α β : Type} [DecidableEq α] (m : List (α × β)) (k : α) : Option β :=
  (m.find? (fun p => decide (p.1 = k))).map (·.2)

/-- `Map.set(k, v)`: overwrite in place if present, else append. -/
def mapSet {α β : Type} [DecidableEq α] (m : List (α × β)) (k : α) (v : β) :
    List (α × β) :=
  if m.any (fun p => decide (p.1 = k)) then
    m.map (fun p => if p.1 = k then (k, v) else p)
  else
    m ++ [(k, v)]

/-- `Array.from(map.values())`. -/
def mapValues {α β : Type} (m : List (α × β)) : List β := m.map (·.2)

/-! ## Data model (src/shared/schema.ts) -/

/-- A `SocialPost`.  `datePosted` is the epoch-day encoding of the ISO
date string; `thumbnailUrl` is optional. -/
structure SocialPost where
  id : String
  platform : String
  title : String
  thumbnailUrl : Option String
  views : Int
  likes : Int
  comments : Int
  shares : Int
  datePosted : Int
  postUrl : String
deriving Repr, DecidableEq

/-- `ExtendedSocialStats` (apiServices.ts): `SocialStats` plus the two
optional error-annotation fields, absent (`none`) unless a degraded
fallback populated them. -/
structure ExtendedSocialStats where
  platform : String
  followers : ℚ
  followersGrowth : ℚ
  views : ℚ
  viewsGrowth : ℚ
  engagement : ℚ
  engagementGrowth : ℚ
  posts : List SocialPost
  lastUpdated : Int
  errorMessage : Option String := none
  isApiError : Option Bool := none
deriving Repr, DecidableEq

/-- A `users` table row. -/
structure User where
  id : Int
  username : String
  email : String
  password : Option String
  firebaseUid : String
  avatarUrl : Option String
  isPro : Bool
  lastLogin : Option Int
  isFirstLogin : Bool
deriving Repr, DecidableEq

/-- `InsertUser`: the zod insert schema omits id, isPro, lastLogin and
isFirstLogin, so a validated payload can only carry these fields. -/
structure InsertUser where
  username : String
  email : String
  password : Option String := none
  firebaseUid : String
  avatarUrl : Option String := none
deriving Repr, DecidableEq

/-- An `api_keys` table row: the per-user credential set. -/
structure ApiKey where
  id : Int
  userId : Int
  youtubeKey : Option String
  instagramKey : Option String
  twitterKey : Option String
  facebookKey : Option String
deriving Repr, DecidableEq

/-- `InsertApiKey`: each platform field of the zod-validated body is
either absent (outer `none`, the spread leaves the old value) or
present with a string-or-null value. -/
structure InsertApiKey where
  userId : Int
  youtubeKey : Option (Option String) := none
  instagramKey : Option (Option String) := none
  twitterKey : Option (Option String) := none
  facebookKey : Option (Option String) := none
deriving Repr, DecidableEq

/-- A `subscriptions` table row. -/
structure Subscription where
  id : Int
  userId : Int
  plan : String
  paymentId : Option String
  startDate : Int
  endDate : Int
  status : String
deriving Repr, DecidableEq

/-- The `MemStorage` state: three id-keyed maps, the stats cache keyed
by the string "userId:platform:days", and the three id counters. -/
structure MemStorage where
  users : List (Int × User)
  platformApiKeys : List (Int × ApiKey)
  userSubscriptions : List (Int × Subscription)
  socialStats : List (String × ExtendedSocialStats)
  currentUserId : Int
  currentApiKeyId : Int
  currentSubscriptionId : Int
deriving Repr, DecidableEq

/-! ## Store primitives -/

/-- JS string truthiness of an optional string field: `undefined`,
`null` and the empty string are falsy. -/
def truthyStr : Option String → Option String
  | some s => if s = "" then none else some s
  | none => none

/-- The cache key `` `${userId}:${platform}:${days}` ``. -/
def mkKey (userId : Int) (platform : String) (days : Int) : String :=
  toString userId ++ ":" ++ platform ++ ":" ++ toString days

/-- `storage.getUser(id)`. -/
def getUser (st : MemStorage) (id : Int) : Option User :=
  mapGet st.users id

/-- `storage.getApiKeys(userId)`: first credential row whose `userId`
matches, in map insertion order. -/
def getApiKeys (st : MemStorage) (userId : Int) : Option ApiKey :=
  (mapValues st.platformApiKeys).find? (fun k => decide (k.userId = userId))

/-- Dynamic field access `` apiKeys?.[`${platform}Key`] ``: only the
four real credential fields are reachable; any other platform tag
names a field that does not exist and yields `undefined`. -/
def apiKeyField (k : ApiKey) (platform : String) : Option String :=
  if platform = "youtube" then k.youtubeKey
  else if platform = "instagram" then k.instagramKey
  else if platform = "twitter" then k.twitterKey
  else if platform = "facebook" then k.facebookKey
  else none

/-- The truthy credential the store sees for (user, platform):
`apiKeys?.[apiKeyFieldName]` filtered by `if (apiKey)`. -/
def storedCredential (st : MemStorage) (userId : Int) (platform : String) :
    Option String :=
  truthyStr ((getApiKeys st userId).bind (fun k => apiKeyField k platform))

/-! ## Platform adapters and factory (apiServices.ts) -/

/-- The four adapter classes produced by the factory. -/
inductive AdapterKind
  | youtube
  | twitter
  | instagram
  | facebook
deriving Repr, DecidableEq

/-- The platform tag each adapter hard-codes in its fallback call to
`storage.getPlatformStats`. -/
def platformName : AdapterKind → String
  | .youtube => "youtube"
  | .twitter => "twitter"
  | .instagram => "instagram"
  | .facebook => "facebook"

/-- `SocialMediaApiServiceFactory.getService`: the switch over the
platform tag; the default case throws "Unsupported platform". -/
def factoryGetService (platform : String) : Except String AdapterKind :=
  if platform = "youtube" then .ok .youtube
  else if platform = "twitter" then .ok .twitter
  else if platform = "instagram" then .ok .instagram
  else if platform = "facebook" then .ok .facebook
  else .error ("Unsupported platform: " ++ platform)

/-- The outcome of an adapter's try block, before its catch clause.
YouTube's is the network/randomness oracle; the other three throw
"implementation in progress" unconditionally.  Every adapter first
throws if its `apiKey` argument is falsy. -/
def tryBlock (oracle : Int → String → Int → Except String ExtendedSocialStats)
    (kind : AdapterKind) (userId : Int) (apiKey : String) (days : Int) :
    Except String ExtendedSocialStats :=
  match kind with
  | .youtube =>
      if apiKey = "" then .error "YouTube API key is required"
      else oracle userId apiKey days
  | .twitter =>
      if apiKey = "" then .error "Twitter API key is required"
      else .error "Twitter API implementation in progress"
  | .instagram =>
      if apiKey = "" then .error "Instagram API key is required"
      else .error "Instagram API implementation in progress"
  | .facebook =>
      if apiKey = "" then .error "Facebook API key is required"
      else .error "Facebook API implementation in progress"

/-- The catch-clause annotation applied to cached data: refreshed
`lastUpdated`, populated `errorMessage` and `isApiError`. -/
def annotateError (s : ExtendedSocialStats) (msg : String) (now : Int) :
    ExtendedSocialStats :=
  { s with lastUpdated := now, errorMessage := some msg, isApiError := some true }

mutual

/-- `MemStorage.getPlatformStats(userId, platform, days)`.
If a truthy credential is on file the live branch runs: the factory
and adapter are invoked inside a try whose catch falls through to the
cache read; on success the result is cached and returned.  With no
truthy credential the cache entry (possibly `undefined`) is returned.
The outer try/catch of the source is unrepresented because no
exception can escape the inner handling.  Returns the store's result
paired with the updated store; `none` means the fuel ran out. -/
def storageGetPlatformStats
    (oracle : Int → String → Int → Except String ExtendedSocialStats)
    (now : Int) :
    Nat → MemStorage → Int → String → Int →
    Option (Option ExtendedSocialStats × MemStorage)
  | fuel, st, userId, platform, days =>
    match storedCredential st userId platform with
    | some key =>
        match fuel with
        | 0 => none
        | fuel' + 1 =>
          match factoryGetService platform with
          | .error _ =>
              some (mapGet st.socialStats (mkKey userId platform days), st)
          | .ok kind =>
            match adapterGetPlatformStats oracle now fuel' st kind userId key days with
            | none => none
            | some (.error _, st') =>
                some (mapGet st'.socialStats (mkKey userId platform days), st')
            | some (.ok s, st') =>
                let cached := { st' with socialStats := mapSet st'.socialStats (mkKey userId platform days) s }
                some (some s, cached)
    | none => some (mapGet st.socialStats (mkKey userId platform days), st)

/-- An adapter's `getPlatformStats(userId, apiKey, days)`: run the try
block; on a throw, the catch reads `storage.getPlatformStats` for the
adapter's hard-coded platform, returns it annotated when it yields
data, and rethrows the original error otherwise. -/
def adapterGetPlatformStats
    (oracle : Int → String → Int → Except String ExtendedSocialStats)
    (now : Int) :
    Nat → MemStorage → AdapterKind → Int → String → Int →
    Option (Except String ExtendedSocialStats × MemStorage)
  | fuel, st, kind, userId, apiKey, days =>
    match tryBlock oracle kind userId apiKey days with
    | .ok s => some (.ok s, st)
    | .error e =>
      match fuel with
      | 0 => none
      | fuel' + 1 =>
        match storageGetPlatformStats oracle now fuel' st userId (platformName kind) days with
        | none => none
        | some (some existing, st') => some (.ok (annotateError existing e now), st')
        | some (none, st') => some (.error e, st')

end

/-! ## Aggregate read and paginated post listing -/

/-- An element of `getAllPlatformStats`'s result:
`{...platformStats, isConnected: hasConnected}`.  `isConnected` is
`none` when the user has no credential row at all (JS `undefined`,
from `apiKeys && ...`), otherwise `some` of `!!apiKeys[field]`. -/
structure StatsOut where
  stats : ExtendedSocialStats
  isConnected : Option Bool
deriving Repr, DecidableEq

/-- The platform iteration order fixed by the source. -/
def allPlatforms : List String := ["youtube", "instagram", "twitter", "facebook"]

/-- `hasConnected`/`isConnected`: `apiKeys && !!apiKeys[apiKeyFieldName]`. -/
def hasConnectedFlag (keys : Option ApiKey) (platform : String) : Option Bool :=
  keys.map (fun k => (truthyStr (apiKeyField k platform)).isSome)

/-- The loop body of `getAllPlatformStats`: resolve each platform in
order, threading the store; a platform whose resolution yields no data
is skipped, and running out of fuel on any platform diverges the whole
aggregate (the awaited promise never settles). -/
def allStatsLoop
    (oracle : Int → String → Int → Except String ExtendedSocialStats)
    (now : Int) (fuel : Nat) (keys : Option ApiKey) (userId days : Int) :
    List String → MemStorage → Option (List StatsOut × MemStorage)
  | [], st => some ([], st)
  | p :: ps, st =>
    match storageGetPlatformStats oracle now fuel st userId p days with
    | none => none
    | some (res, st') =>
      match allStatsLoop oracle now fuel keys userId days ps st' with
      | none => none
      | some (rest, st'') =>
        match res with
        | some s => some (⟨s, hasConnectedFlag keys p⟩ :: rest, st'')
        | none => some (rest, st'')

/-- `MemStorage.getAllPlatformStats(userId, days)`. -/
def getAllPlatformStats
    (oracle : Int → String → Int → Except String ExtendedSocialStats)
    (now : Int) (fuel : Nat) (st : MemStorage) (userId days : Int) :
    Option (List StatsOut × MemStorage) :=
  allStatsLoop oracle now fuel (getApiKeys st userId) userId days allPlatforms st

/-- An element of `getPosts`'s flattened list:
`{...post, isConnected}`. -/
structure PostOut where
  post : SocialPost
  isConnected : Option Bool
deriving Repr, DecidableEq

/-- The per-platform gathering loop of `getPosts`: `stats?.posts` is
truthy exactly when the stats resolved (a posts array, even empty, is
truthy in JS). -/
def postsLoop
    (oracle : Int → String → Int → Except String ExtendedSocialStats)
    (now : Int) (fuel : Nat) (keys : Option ApiKey) (userId days : Int) :
    List String → MemStorage → Option (List PostOut × MemStorage)
  | [], st => some ([], st)
  | p :: ps, st =>
    match storageGetPlatformStats oracle now fuel st userId p days with
    | none => none
    | some (res, st') =>
      match postsLoop oracle now fuel keys userId days ps st' with
      | none => none
      | some (rest, st'') =>
        match res with
        | some s =>
            some (s.posts.map (fun q => ⟨q, hasConnectedFlag keys p⟩) ++ rest, st'')
        | none => some (rest, st'')

/-- The sort comparator `(a, b) => dateB - dateA`: descending by
publish time (non-strict, so the order is total). -/
def postDesc (a b : PostOut) : Prop := b.post.datePosted ≤ a.post.datePosted

instance : DecidableRel postDesc := fun a b => by
  unfold postDesc; infer_instance

instance : IsTotal PostOut postDesc :=
  ⟨fun a b => le_total b.post.datePosted a.post.datePosted⟩

instance : IsTrans PostOut postDesc :=
  ⟨fun _ _ _ h1 h2 => le_trans h2 h1⟩

/-- ECMAScript `Array.prototype.slice(s, e)`: negative indices count
from the end, and both endpoints are clamped to the array bounds. -/
def jsSlice {α : Type} (l : List α) (s e : Int) : List α :=
  (l.drop (if s < 0 then max ((l.length : Int) + s) 0
           else min s (l.length : Int)).toNat).take
    ((if e < 0 then max ((l.length : Int) + e) 0 else min e (l.length : Int)) -
     (if s < 0 then max ((l.length : Int) + s) 0 else min s (l.length : Int))).toNat

/-- `MemStorage.getPosts(userId, platform, days, page, limit)`:
gather (all four platforms when "all" is requested, else the one
requested), stable-sort descending by `datePosted` (JS `Array.sort` is
stable; insertion sort under the non-strict comparator realises the
same stable order), then slice `[(page-1)*limit, (page-1)*limit + limit)`
and report the pre-slice length as `total`. -/
def getPosts
    (oracle : Int → String → Int → Except String ExtendedSocialStats)
    (now : Int) (fuel : Nat) (st : MemStorage)
    (userId : Int) (platform : String) (days page limit : Int) :
    Option ((List PostOut × Int) × MemStorage) :=
  let keys := getApiKeys st userId
  let platforms := if platform = "all" then allPlatforms else [platform]
  match postsLoop oracle now fuel keys userId days platforms st with
  | none => none
  | some (allPosts, st') =>
    let sortedPosts := allPosts.insertionSort postDesc
    let startIndex := (page - 1) * limit
    let endIndex := startIndex + limit
    some ((jsSlice sortedPosts startIndex endIndex, (sortedPosts.length : Int)), st')

/-! ## Seeded sample data (`initializeSampleData`)

`t0` is the construction instant (`new Date().toISOString()`), and ISO
dates are epoch days: 2023-06-05 ↦ 19513 … 2023-06-12 ↦ 19520. -/

/-- Seed entry `'1:youtube:7'`. -/
def ytSeed (t0 : Int) : ExtendedSocialStats :=
  { platform := "youtube", followers := 78200, followersGrowth := 1.2,
    views := 1200000, viewsGrowth := 3.5,
    engagement := 25600, engagementGrowth := 4.7, lastUpdated := t0,
    posts :=
      [ { id := "yt1", platform := "youtube",
          title := "How to Increase Your Social Media Engagement in 2023",
          thumbnailUrl := some "https://via.placeholder.com/56x40",
          views := 24800, likes := 1200, comments := 156, shares := 86,
          datePosted := 19520, postUrl := "https://youtube.com/watch?v=example1" },
        { id := "yt2", platform := "youtube",
          title := "10 Social Media Trends for 2023",
          thumbnailUrl := some "https://via.placeholder.com/56x40",
          views := 18500, likes := 950, comments := 120, shares := 65,
          datePosted := 19518, postUrl := "https://youtube.com/watch?v=example2" } ] }

/-- Seed entry `'1:instagram:7'`. -/
def igSeed (t0 : Int) : ExtendedSocialStats :=
  { platform := "instagram", followers := 45800, followersGrowth := 2.4,
    views := 230000, viewsGrowth := 5.6,
    engagement := 18900, engagementGrowth := 3.2, lastUpdated := t0,
    posts :=
      [ { id := "ig1", platform := "instagram",
          title := "New product launch! Check out our summer collection #fashion #style",
          thumbnailUrl := some "https://via.placeholder.com/56x40",
          views := 8400, likes := 945, comments := 42, shares := 0,
          datePosted := 19518, postUrl := "https://instagram.com/p/example1" },
        { id := "ig2", platform := "instagram",
          title := "Behind the scenes at our latest photoshoot #behindthescenes",
          thumbnailUrl := some "https://via.placeholder.com/56x40",
          views := 6200, likes := 720, comments := 38, shares := 0,
          datePosted := 19516, postUrl := "https://instagram.com/p/example2" } ] }

/-- Seed entry `'1:twitter:7'`. -/
def twSeed (t0 : Int) : ExtendedSocialStats :=
  { platform := "twitter", followers := 22100, followersGrowth := 1.8,
    views := 238000, viewsGrowth := -2.1,
    engagement := 5600, engagementGrowth := 0.8, lastUpdated := t0,
    posts :=
      [ { id := "tw1", platform := "twitter",
          title := "We're excited to announce our partnership with @techcompany to bring you even better social analytics! #announcement",
          thumbnailUrl := none,
          views := 12300, likes := 248, comments := 32, shares := 68,
          datePosted := 19516,
          postUrl := "https://twitter.com/username/status/example1" },
        { id := "tw2", platform := "twitter",
          title := "What's your favorite social media platform? Let us know in the comments below! #poll",
          thumbnailUrl := none,
          views := 8900, likes := 180, comments := 124, shares := 23,
          datePosted := 19515,
          postUrl := "https://twitter.com/username/status/example2" } ] }

/-- Seed entry `'1:facebook:7'`. -/
def fbSeed (t0 : Int) : ExtendedSocialStats :=
  { platform := "facebook", followers := 15400, followersGrowth := 0.9,
    views := 42800, viewsGrowth := 3.8,
    engagement := 6100, engagementGrowth := 2.1, lastUpdated := t0,
    posts :=
      [ { id := "fb1", platform := "facebook",
          title := "Join us for our upcoming webinar on \"Social Media Trends for 2023\"! Register now.",
          thumbnailUrl := some "https://via.placeholder.com/56x40",
          views := 5600, likes := 124, comments := 36, shares := 18,
          datePosted := 19514, postUrl := "https://facebook.com/posts/example1" },
        { id := "fb2", platform := "facebook",
          title := "Check out our latest blog post on maximizing your social media ROI!",
          thumbnailUrl := some "https://via.placeholder.com/56x40",
          views := 4200, likes := 98, comments := 28, shares := 15,
          datePosted := 19513, postUrl := "https://facebook.com/posts/example2" } ] }

/-- The extra 30-day posts: a copy of `posts[i % posts.length]` with
scaled-down, floored counters, a suffixed id, and the publish date
moved `(i+3)*2` days back (`setDate(getDate() - (i+3)*2)`).  The
scale factors 0.8/0.7/0.75 act exactly on ℚ (float rounding of the
source is abstracted). -/
def scaledPost (p : SocialPost) (i : Nat) : SocialPost :=
  { p with
      id := p.id ++ "-" ++ toString (i + 3)
      views := Int.floor ((p.views : ℚ) * 0.8)
      likes := Int.floor ((p.likes : ℚ) * 0.7)
      comments := Int.floor ((p.comments : ℚ) * 0.75)
      shares := Int.floor ((p.shares : ℚ) * 0.7)
      datePosted := p.datePosted - ((i : Int) + 3) * 2 }

/-- The 30-day variant of a seeded entry: `followers *= 1`,
`views *= 4.5`, `engagement *= 4.2` (exact on ℚ), growths and
`lastUpdated` copied, and six extra scaled posts appended. -/
def thirtyDayStats (s : ExtendedSocialStats) : ExtendedSocialStats :=
  { s with
      followers := s.followers * 1
      views := s.views * 4.5
      engagement := s.engagement * 4.2
      posts := s.posts ++
        (List.range 6).map (fun i =>
          scaledPost ((s.posts.get? (i % s.posts.length)).getD
            { id := "", platform := "", title := "", thumbnailUrl := none,
              views := 0, likes := 0, comments := 0, shares := 0,
              datePosted := 0, postUrl := "" }) i) }

/-- The `socialStats` map after `initializeSampleData`: the derived
`:30` entries are set first (in `Object.keys` insertion order), then
the four `:7` sample entries. -/
def seedSampleStats (t0 : Int) : List (String × ExtendedSocialStats) :=
  [ (mkKey 1 "youtube" 30, thirtyDayStats (ytSeed t0)),
    (mkKey 1 "instagram" 30, thirtyDayStats (igSeed t0)),
    (mkKey 1 "twitter" 30, thirtyDayStats (twSeed t0)),
    (mkKey 1 "facebook" 30, thirtyDayStats (fbSeed t0)),
    (mkKey 1 "youtube" 7, ytSeed t0),
    (mkKey 1 "instagram" 7, igSeed t0),
    (mkKey 1 "twitter" 7, twSeed t0),
    (mkKey 1 "facebook" 7, fbSeed t0) ]

/-- A fresh `MemStorage` as built by the constructor at instant `t0`:
empty maps, counters at 1, sample stats seeded. -/
def initialStore (t0 : Int) : MemStorage :=
  { users := [], platformApiKeys := [], userSubscriptions := [],
    socialStats := seedSampleStats t0,
    currentUserId := 1, currentApiKeyId := 1, currentSubscriptionId := 1 }

/-! ## Store mutations -/

/-- `MemStorage.createUser`: takes the next id (post-incrementing the
counter), forces `isPro := false`, `lastLogin := now`,
`isFirstLogin := true`, and normalises falsy `password`/`avatarUrl`
to null; the insert payload cannot carry any of the forced fields. -/
def createUser (st : MemStorage) (ins : InsertUser) (now : Int) :
    User × MemStorage :=
  let id := st.currentUserId
  let user : User :=
    { id := id, username := ins.username, email := ins.email,
      password := truthyStr ins.password, firebaseUid := ins.firebaseUid,
      avatarUrl := truthyStr ins.avatarUrl, isPro := false,
      lastLogin := some now, isFirstLogin := true }
  (user, { st with users := mapSet st.users id user, currentUserId := id + 1 })

/-- `MemStorage.updateUser`: merge `{...user, ...data}` for an
existing id; the spread of the literal patch object is modelled by the
corresponding structure update. -/
def updateUser (st : MemStorage) (id : Int) (patch : User → User) :
    Option User × MemStorage :=
  match getUser st id with
  | none => (none, st)
  | some u =>
      let u' := patch u
      (some u', { st with users := mapSet st.users id u' })

/-- `insertApiKey.f || null`: absent, null and empty-string values
normalise to null. -/
def jsOrNull (f : Option (Option String)) : Option String :=
  truthyStr (f.getD none)

/-- `MemStorage.saveApiKeys`. -/
def saveApiKeys (st : MemStorage) (ins : InsertApiKey) : ApiKey × MemStorage :=
  let id := st.currentApiKeyId
  let row : ApiKey :=
    { id := id, userId := ins.userId,
      youtubeKey := jsOrNull ins.youtubeKey,
      instagramKey := jsOrNull ins.instagramKey,
      twitterKey := jsOrNull ins.twitterKey,
      facebookKey := jsOrNull ins.facebookKey }
  (row,
    { st with platformApiKeys := mapSet st.platformApiKeys id row,
              currentApiKeyId := id + 1 })

/-- The merge `{...apiKey, ...data}` of a validated body into an
existing row: `userId` is always present in the body; a platform field
overrides only when present (outer `some`). -/
def mergeApiKey (row : ApiKey) (ins : InsertApiKey) : ApiKey :=
  { row with
      userId := ins.userId
      youtubeKey := ins.youtubeKey.getD row.youtubeKey
      instagramKey := ins.instagramKey.getD row.instagramKey
      twitterKey := ins.twitterKey.getD row.twitterKey
      facebookKey := ins.facebookKey.getD row.facebookKey }

/-- `MemStorage.updateApiKeys(userId, data)`. -/
def updateApiKeys (st : MemStorage) (userId : Int) (ins : InsertApiKey) :
    Option ApiKey × MemStorage :=
  match (mapValues st.platformApiKeys).find? (fun k => decide (k.userId = userId)) with
  | none => (none, st)
  | some row =>
      let row' := mergeApiKey row ins
      (some row',
        { st with platformApiKeys := mapSet st.platformApiKeys row.id row' })

/-! ## Request layer (routes) -/

/-- `Number(q) || dflt`: the raw query value is `none` when absent or
non-numeric (`Number` gives falsy `NaN`), `some v` for an
integer-valued numeric string; `0` is falsy and also falls back. -/
def jsNumberOr (q : Option Int) (dflt : Int) : Int :=
  match q with
  | none => dflt
  | some v => if v = 0 then dflt else v

/-- The possible responses of `GET /api/stats`. -/
inductive StatsRes
  | userNotFound
  | upgradeRequired
  | noStats (platform : String)
  | single (s : ExtendedSocialStats)
  | all (l : List StatsOut)
deriving Repr, DecidableEq

/-- The `pagination` object of `GET /api/posts`. -/
structure Pagination where
  page : Int
  limit : Int
  total : Int
  totalPages : Int
deriving Repr, DecidableEq

/-- `Math.ceil(total / limit)`. -/
def jsCeilDiv (a b : Int) : Int := Int.ceil ((a : ℚ) / (b : ℚ))

/-- The possible responses of `GET /api/posts`. -/
inductive PostsRes
  | userNotFound
  | upgradeRequired
  | ok (posts : List PostOut) (pagination : Pagination)
deriving Repr, DecidableEq

/-- The possible responses of a zod-valid `POST /api/apikeys` body. -/
inductive KeysRes
  | updated (k : ApiKey)
  | created (k : ApiKey)
  | updateFailed
deriving Repr, DecidableEq

/-- The all-platforms branch of the stats handler. -/
def apiStatsAll
    (oracle : Int → String → Int → Except String ExtendedSocialStats)
    (now : Int) (fuel : Nat) (st : MemStorage) (userId days : Int) :
    Option (StatsRes × MemStorage) :=
  match getAllPlatformStats oracle now fuel st userId days with
  | none => none
  | some (l, st') => some (.all l, st')

/-- `GET /api/stats` handler: parse `userId` (default 1) and `days`
(default 7); 404 when the user does not exist; 403 with `upgrade:true`
when a non-pro user asks for `days > 7`; then either the
single-platform lookup (404 when it yields nothing) or the aggregate.
`platform && platform !== 'all'` selects the single-platform branch. -/
def apiStats
    (oracle : Int → String → Int → Except String ExtendedSocialStats)
    (now : Int) (fuel : Nat) (st : MemStorage)
    (qUserId qDays : Option Int) (qPlatform : Option String) :
    Option (StatsRes × MemStorage) :=
  let userId := jsNumberOr qUserId 1
  let days := jsNumberOr qDays 7
  match getUser st userId with
  | none => some (.userNotFound, st)
  | some user =>
    if user.isPro = false ∧ 7 < days then some (.upgradeRequired, st)
    else
      match truthyStr qPlatform with
      | some p =>
        if p = "all" then apiStatsAll oracle now fuel st userId days
        else
          match storageGetPlatformStats oracle now fuel st userId p days with
          | none => none
          | some (none, st') => some (.noStats p, st')
          | some (some s, st') => some (.single s, st')
      | none => apiStatsAll oracle now fuel st userId days

/-- `GET /api/posts` handler: parse `userId` (default 1), `days`
(default 7), `platform` (falsy → "all"), `page` (default 1), `limit`
(default 10); 404 / 403 gates as for stats, then the paginated
listing with `totalPages = Math.ceil(total / limit)`. -/
def apiPosts
    (oracle : Int → String → Int → Except String ExtendedSocialStats)
    (now : Int) (fuel : Nat) (st : MemStorage)
    (qUserId qDays : Option Int) (qPlatform : Option String)
    (qPage qLimit : Option Int) :
    Option (PostsRes × MemStorage) :=
  let userId := jsNumberOr qUserId 1
  let days := jsNumberOr qDays 7
  let platform := (truthyStr qPlatform).getD "all"
  let page := jsNumberOr qPage 1
  let limit := jsNumberOr qLimit 10
  match getUser st userId with
  | none => some (.userNotFound, st)
  | some user =>
    if user.isPro = false ∧ 7 < days then some (.upgradeRequired, st)
    else
      match getPosts oracle now fuel st userId platform days page limit with
      | none => none
      | some ((posts, total), st') =>
          some (.ok posts
            { page := page, limit := limit, total := total,
              totalPages := jsCeilDiv total limit }, st')

/-- `POST /api/apikeys` handler on a zod-valid body: update the
existing credential row when one exists (200), else create one and
clear the user's `isFirstLogin` flag (201). -/
def postApiKeys (st : MemStorage) (body : InsertApiKey) :
    KeysRes × MemStorage :=
  match getApiKeys st body.userId with
  | some _ =>
      match updateApiKeys st body.userId body with
      | (none, st') => (.updateFailed, st')
      | (some row, st') => (.updated row, st')
  | none =>
      let rowSt := saveApiKeys st body
      let upd := updateUser rowSt.2 body.userId (fun u => { u with isFirstLogin := false })
      (.created rowSt.1, upd.2)

/-! ## Map lemmas -/

theorem mapGet_cons {α β : Type} [DecidableEq α] (p : α × β) (t : List (α × β)) (k : α) :
    mapGet (p :: t) k = if p.1 = k then some p.2 else mapGet t k := by
  by_cases h : p.1 = k <;> simp [mapGet, List.find?, h]

theorem mapGet_overwrite {α β : Type} [DecidableEq α] (t : List (α × β)) (k k' : α) (v : β)
    (h : k' ≠ k) :
    mapGet (t.map (fun p => if p.1 = k then (k, v) else p)) k' = mapGet t k' := by
  induction t with
  | nil => rfl
  | cons p t ih =>
      obtain ⟨a, b⟩ := p
      by_cases hp : a = k
      · subst hp
        simp [List.map_cons, mapGet_cons, Ne.symm h, ih]
      · simp only [List.map_cons, if_neg hp, mapGet_cons, ih]

theorem mapGet_overwrite_self {α β : Type} [DecidableEq α] (t : List (α × β)) (k : α) (v : β)
    (hany : t.any (fun p => decide (p.1 = k)) = true) :
    mapGet (t.map (fun p => if p.1 = k then (k, v) else p)) k = some v := by
  induction t with
  | nil => simp at hany
  | cons p t ih =>
      by_cases hp : p.1 = k
      · rw [List.map_cons, if_pos hp, mapGet_cons, if_pos rfl]
      · simp only [List.any_cons, Bool.or_eq_true, decide_eq_true_eq] at hany
        rcases hany with h | h
        · exact absurd h hp
        · rw [List.map_cons, if_neg hp, mapGet_cons, if_neg hp, ih (by simpa using h)]

theorem mapGet_append_single {α β : Type} [DecidableEq α] (t : List (α × β)) (k k' : α) (v : β)
    (h : k' ≠ k) :
    mapGet (t ++ [(k, v)]) k' = mapGet t k' := by
  induction t with
  | nil => simp [mapGet, List.find?, Ne.symm h]
  | cons p t ih => rw [List.cons_append, mapGet_cons, mapGet_cons, ih]

theorem mapGet_eq_none {α β : Type} [DecidableEq α] (m : List (α × β)) (k : α)
    (h : ∀ p ∈ m, p.1 ≠ k) :
    mapGet m k = none := by
  induction m with
  | nil => rfl
  | cons p t ih =>
      simp only [List.mem_cons, forall_eq_or_imp] at h
      rw [mapGet_cons, if_neg h.1, ih h.2]

theorem mapGet_mapSet {α β : Type} [DecidableEq α] (m : List (α × β)) (k : α) (v : β) :
    mapGet (mapSet m k v) k = some v := by
  unfold mapSet
  split
  · exact mapGet_overwrite_self m k v (by assumption)
  · rename_i hany
    have hnone : mapGet m k = none := by
      refine mapGet_eq_none m k (fun p hp hpk => ?_)
      exact hany (List.any_eq_true.mpr ⟨p, hp, by simp [hpk]⟩)
    induction m with
    | nil => simp [mapGet, List.find?]
    | cons p t ih =>
        rw [mapGet_cons] at hnone
        by_cases hp : p.1 = k
        · rw [if_pos hp] at hnone; exact absurd hnone (by simp)
        · rw [if_neg hp] at hnone
          rw [List.cons_append, mapGet_cons, if_neg hp]
          exact ih (fun h2 => hany (by simp only [List.any_cons, h2, Bool.or_true])) hnone

theorem mapGet_mapSet_ne {α β : Type} [DecidableEq α] (m : List (α × β)) (k k' : α) (v : β)
    (h : k' ≠ k) :
    mapGet (mapSet m k v) k' = mapGet m k' := by
  unfold mapSet
  split
  · exact mapGet_overwrite m k k' v h
  · exact mapGet_append_single m k k' v h

theorem mem_mapSet {α β : Type} [DecidableEq α] {m : List (α × β)} {k : α} {v : β}
    {p : α × β} (h : p ∈ mapSet m k v) : p = (k, v) ∨ p ∈ m := by
  unfold mapSet at h
  split at h
  · rcases List.mem_map.mp h with ⟨q, hq, hqe⟩
    by_cases hk : q.1 = k
    · rw [if_pos hk] at hqe; exact Or.inl hqe.symm
    · rw [if_neg hk] at hqe; exact Or.inr (hqe ▸ hq)
  · rcases List.mem_append.mp h with h | h
    · exact Or.inr h
    · simp only [List.mem_singleton] at h; exact Or.inl h

/-! ## Concrete fixtures -/

/-- A deterministic network oracle whose every outbound call fails. -/
def failingOracle : Int → String → Int → Except String ExtendedSocialStats :=
  fun _ _ _ => .error "network error"

/-- The insert payload of the spec's walkthrough user. -/
def scenarioInsert : InsertUser :=
  { username := "creator", email := "creator@example.com", firebaseUid := "uid-1" }

/-- The store after the first `createUser` on a fresh store built at
instant 0: user 1 exists, free tier, first login, no credentials. -/
def user1Store : MemStorage := (createUser (initialStore 0) scenarioInsert 0).2

/-- `user1Store` with a twitter credential row on file for user 1. -/
def credStore : MemStorage :=
  { user1Store with platformApiKeys :=
      [(1, { id := 1, userId := 1, youtubeKey := none, instagramKey := none,
             twitterKey := some "token", facebookKey := none })] }

/-! ## Claims -/

/-- C3: for every user with no truthy credential on file for platform
P, `getPlatformStats(userId, P, days)` returns the seeded/cached entry
for the key (userId, P, days) unmodified (the store is returned
unchanged), and repeated calls — with any fuel — return the same
value: an idempotent read. -/
theorem getPlatformStats_noCredential_idempotent
    (oracle : Int → String → Int → Except String ExtendedSocialStats)
    (now : Int) (fuel : Nat) (st : MemStorage) (userId : Int)
    (platform : String) (days : Int)
    (hcred : storedCredential st userId platform = none) :
    storageGetPlatformStats oracle now fuel st userId platform days =
      some (mapGet st.socialStats (mkKey userId platform days), st) ∧
    ∀ fuel₂ : Nat,
      storageGetPlatformStats oracle now fuel₂ st userId platform days =
        storageGetPlatformStats oracle now fuel st userId platform days := by
  have key : ∀ f : Nat, storageGetPlatformStats oracle now f st userId platform days =
      some (mapGet st.socialStats (mkKey userId platform days), st) := by
    intro f
    simp only [storageGetPlatformStats, hcred]
  exact ⟨key fuel, fun fuel₂ => (key fuel₂).trans (key fuel).symm⟩

/-- Witness for C3: user 1 on the fresh store, no youtube credential;
the call returns the seeded youtube entry and the unchanged store. -/
theorem getPlatformStats_noCredential_idempotent_witness :
    storedCredential user1Store 1 "youtube" = none ∧
    storageGetPlatformStats failingOracle 5 3 user1Store 1 "youtube" 7 =
      some (mapGet user1Store.socialStats (mkKey 1 "youtube" 7), user1Store) :=
  ⟨by rfl,
   (getPlatformStats_noCredential_idempotent failingOracle 5 3 user1Store 1
      "youtube" 7 (by rfl)).1⟩

/-- C2 (code bug): when a truthy credential is on file and the
adapter's live fetch fails deterministically, the mutual recursion
between `MemStorage.getPlatformStats` and the adapter's catch-block
fallback never terminates: for every fuel the call yields `none`
(the promise never settles), so the cached entry is never returned,
contradicting the intended degraded-fallback behaviour stated by the
code's own comments ("Fall back to cached data if API call fails"). -/
theorem getPlatformStats_failingFetch_diverges
    (oracle : Int → String → Int → Except String ExtendedSocialStats)
    (now : Int) (st : MemStorage) (userId days : Int) (p k : String)
    (kind : AdapterKind) (e : String)
    (hcred : storedCredential st userId p = some k)
    (hfac : factoryGetService p = .ok kind)
    (hname : platformName kind = p)
    (htry : tryBlock oracle kind userId k days = .error e) :
    ∀ fuel : Nat, storageGetPlatformStats oracle now fuel st userId p days = none := by
  have main : ∀ fuel : Nat,
      storageGetPlatformStats oracle now fuel st userId p days = none ∧
      adapterGetPlatformStats oracle now fuel st kind userId k days = none := by
    intro fuel
    induction fuel with
    | zero =>
        constructor
        · simp only [storageGetPlatformStats, hcred]
        · simp only [adapterGetPlatformStats, htry]
    | succ n ih =>
        constructor
        · simp only [storageGetPlatformStats, hcred, hfac, ih.2]
        · simp only [adapterGetPlatformStats, htry, hname, ih.1]
  exact fun fuel => (main fuel).1

/-- Witness for C2: user 1 with a twitter credential on file and the
seeded '1:twitter:7' cache entry present; the read still diverges. -/
theorem getPlatformStats_failingFetch_diverges_witness :
    storedCredential credStore 1 "twitter" = some "token" ∧
    (mapGet credStore.socialStats (mkKey 1 "twitter" 7)).isSome = true ∧
    storageGetPlatformStats failingOracle 5 7 credStore 1 "twitter" 7 = none :=
  ⟨by rfl, by rfl,
   getPlatformStats_failingFetch_diverges failingOracle 5 credStore 1 7 "twitter"
     "token" .twitter "Twitter API implementation in progress"
     (by rfl) (by rfl) (by rfl) (by rfl) 7⟩

/-- C5 counterexample: on a store holding the seeded '1:twitter:7'
cache entry and no credential rows, the Twitter adapter's outbound
failure does not reject the adapter call: the adapter itself performs
the fallback and resolves successfully with the cached entry,
annotated — refuting "every outbound-call failure causes the adapter
call itself to fail, with fallback performed by the Stats Store as
caller; the adapter never resolves with cached data". -/
theorem adapter_resolves_with_cached_data :
    adapterGetPlatformStats failingOracle 9 1 user1Store .twitter 1 "token" 7 =
      some (.ok (annotateError (twSeed 0) "Twitter API implementation in progress" 9),
        user1Store) := by rfl

/-- C5 (amended): on an outbound failure the adapter performs the
cache fallback itself: it resolves successfully with the store's
entry annotated with the error and a fresh timestamp whenever the
nested store read yields one, and rejects with the original error
exactly when the store read yields nothing. -/
theorem adapter_fallback_self
    (oracle : Int → String → Int → Except String ExtendedSocialStats)
    (now : Int) (fuel : Nat) (st : MemStorage)
    (kind : AdapterKind) (userId : Int) (apiKey : String) (days : Int) (e : String)
    (htry : tryBlock oracle kind userId apiKey days = .error e) :
    (∀ existing st',
      storageGetPlatformStats oracle now fuel st userId (platformName kind) days =
        some (some existing, st') →
      adapterGetPlatformStats oracle now (fuel + 1) st kind userId apiKey days =
        some (.ok (annotateError existing e now), st')) ∧
    (∀ st',
      storageGetPlatformStats oracle now fuel st userId (platformName kind) days =
        some (none, st') →
      adapterGetPlatformStats oracle now (fuel + 1) st kind userId apiKey days =
        some (.error e, st')) := by
  constructor
  · intro existing st' hs
    simp only [adapterGetPlatformStats, htry, hs]
  · intro st' hs
    simp only [adapterGetPlatformStats, htry, hs]

/-- Witness for the amended C5 at the Twitter stub on the fresh
store: the nested store read yields the seeded entry and the adapter
resolves with it, annotated. -/
theorem adapter_fallback_self_witness :
    tryBlock failingOracle .twitter 1 "token" 7 =
      .error "Twitter API implementation in progress" ∧
    storageGetPlatformStats failingOracle 9 0 user1Store 1 (platformName .twitter) 7 =
      some (some (twSeed 0), user1Store) ∧
    adapterGetPlatformStats failingOracle 9 (0 + 1) user1Store .twitter 1 "token" 7 =
      some (.ok (annotateError (twSeed 0) "Twitter API implementation in progress" 9),
        user1Store) :=
  ⟨by rfl, by rfl,
   (adapter_fallback_self failingOracle 9 0 user1Store .twitter 1 "token" 7
      "Twitter API implementation in progress" (by rfl)).1 (twSeed 0) user1Store (by rfl)⟩

/-- C1: for every request to GET /api/stats or GET /api/posts by an
existing user whose isPro flag is false, a requested days value above
7 is answered by the policy-denied 403 `upgrade:true` response with
the store untouched, regardless of platform or data availability;
and when the effective days value is 7 the response is never the
policy-denied one. -/
theorem freeTier_window_gate
    (oracle : Int → String → Int → Except String ExtendedSocialStats)
    (now : Int) (fuel : Nat) (st : MemStorage)
    (qUserId qDays : Option Int) (qPlatform : Option String)
    (qPage qLimit : Option Int) (u : User)
    (huser : getUser st (jsNumberOr qUserId 1) = some u)
    (hfree : u.isPro = false) :
    (7 < jsNumberOr qDays 7 →
      apiStats oracle now fuel st qUserId qDays qPlatform =
        some (.upgradeRequired, st) ∧
      apiPosts oracle now fuel st qUserId qDays qPlatform qPage qLimit =
        some (.upgradeRequired, st)) ∧
    (jsNumberOr qDays 7 = 7 →
      (∀ r st', apiStats oracle now fuel st qUserId qDays qPlatform = some (r, st') →
        r ≠ StatsRes.upgradeRequired) ∧
      (∀ r st', apiPosts oracle now fuel st qUserId qDays qPlatform qPage qLimit =
          some (r, st') → r ≠ PostsRes.upgradeRequired)) := by
  constructor
  · intro hdays
    constructor
    · simp only [apiStats, huser, hfree, hdays, and_self, if_true, true_and]
    · simp only [apiPosts, huser, hfree, hdays, and_self, if_true, true_and]
  · intro hdays
    have hgate : ¬(u.isPro = false ∧ 7 < jsNumberOr qDays 7) := by
      rw [hdays]; simp
    constructor
    · intro r st' h
      simp only [apiStats, huser, hgate, if_false] at h
      split at h
      · rename_i p
        split at h
        · simp only [apiStatsAll] at h
          split at h
          · exact absurd h (by simp)
          · injection h with h1; injection h1 with h2; simp [← h2]
        · split at h
          · exact absurd h (by simp)
          · injection h with h1; injection h1 with h2; simp [← h2]
          · injection h with h1; injection h1 with h2; simp [← h2]
      · simp only [apiStatsAll] at h
        split at h
        · exact absurd h (by simp)
        · injection h with h1; injection h1 with h2; simp [← h2]
    · intro r st' h
      simp only [apiPosts, huser, hgate, if_false] at h
      split at h
      · exact absurd h (by simp)
      · injection h with h1; injection h1 with h2; simp [← h2]

/-- Witness for C1: the free walkthrough user with days=30 receives
the 403 upgrade response from the stats endpoint. -/
theorem freeTier_window_gate_witness :
    getUser user1Store (jsNumberOr (some 1) 1) =
      some (createUser (initialStore 0) scenarioInsert 0).1 ∧
    apiStats failingOracle 0 0 user1Store (some 1) (some 30) none =
      some (.upgradeRequired, user1Store) :=
  ⟨by rfl,
   ((freeTier_window_gate failingOracle 0 0 user1Store (some 1) (some 30) none none none
      (createUser (initialStore 0) scenarioInsert 0).1 (by rfl) (by rfl)).1 (by decide)).1⟩

/-- C7 counterexample: days = -5 survives the `Number(q) || 7` step,
is not a positive integer, passes the free-tier gate (-5 is not > 7)
and reaches the Stats Store, whose lookup at the key "1:youtube:-5"
then misses and produces the 404 — refuting "numeric query parameters
are validated as positive integers before being passed to the store". -/
theorem negative_days_passed_through :
    jsNumberOr (some (-5)) 7 = -5 ∧
    ¬(0 < jsNumberOr (some (-5)) 7) ∧
    apiStats failingOracle 0 0 user1Store (some 1) (some (-5)) (some "youtube") =
      some (.noStats "youtube", user1Store) :=
  ⟨by rfl, by decide, by rfl⟩

/-- C7 (amended): the handlers coerce the numeric query parameters
with `Number(q) || default` instead of validating them: an absent or
zero/NaN-coercing value falls back to the default (days=7, page=1,
limit=10, and userId=1), while every nonzero integer value —
negative ones included — is passed through to the Stats Store
unchanged. -/
theorem queryParam_coercion (v d : Int) (hv : v ≠ 0) :
    jsNumberOr none d = d ∧
    jsNumberOr (some 0) d = d ∧
    jsNumberOr (some v) d = v ∧
    (∀ oracle now fuel st qPlatform,
      apiStats oracle now fuel st none none qPlatform =
        apiStats oracle now fuel st (some 1) (some 7) qPlatform) ∧
    (∀ oracle now fuel st qUserId qDays qPlatform,
      apiPosts oracle now fuel st qUserId qDays qPlatform none none =
        apiPosts oracle now fuel st qUserId qDays qPlatform (some 1) (some 10)) :=
  ⟨rfl, by simp [jsNumberOr], by simp [jsNumberOr, hv],
   fun _ _ _ _ _ => rfl, fun _ _ _ _ _ _ _ => rfl⟩

/-- Witness for the amended C7 at v = -5. -/
theorem queryParam_coercion_witness :
    ((-5 : Int) ≠ 0) ∧ jsNumberOr none 7 = 7 ∧ jsNumberOr (some 0) 7 = 7 ∧
    jsNumberOr (some (-5)) 7 = -5 :=
  ⟨by decide, (queryParam_coercion (-5) 7 (by decide)).1,
   (queryParam_coercion (-5) 7 (by decide)).2.1,
   (queryParam_coercion (-5) 7 (by decide)).2.2.1⟩

/-- C8: user 1 on the fresh store (free tier, no credentials):
GET /api/stats with userId=1 and days=7 returns exactly the four
platform entries youtube, instagram, twitter, facebook, each carrying
the seeded sample values (connected flag undefined), with the store
unchanged; in particular the youtube entry has followers = 78200. -/
theorem stats_day7_returns_seeded_samples :
    apiStats failingOracle 0 0 user1Store (some 1) (some 7) none =
      some (.all [⟨ytSeed 0, none⟩, ⟨igSeed 0, none⟩, ⟨twSeed 0, none⟩, ⟨fbSeed 0, none⟩],
        user1Store) ∧
    (ytSeed 0).followers = 78200 :=
  ⟨by rfl, by rfl⟩

/-- C10: for a truthy platform tag outside the supported set and
different from 'all', a stats request by an existing user that passes
the window gate finds no credential (the dynamic `<platform>Key`
field does not exist) and no cache entry, so it answers the 404
"no stats found" response with the store unchanged — for every fuel,
hence without entering the live branch, the only site that could
raise the factory's "Unsupported platform" failure. -/
theorem unsupported_platform_404
    (oracle : Int → String → Int → Except String ExtendedSocialStats)
    (now : Int) (fuel : Nat) (st : MemStorage)
    (qUserId qDays : Option Int) (p : String) (u : User)
    (hp : p ∉ allPlatforms) (hpAll : p ≠ "all") (hpT : p ≠ "")
    (huser : getUser st (jsNumberOr qUserId 1) = some u)
    (hgate : u.isPro = true ∨ jsNumberOr qDays 7 ≤ 7)
    (hcache : mapGet st.socialStats
        (mkKey (jsNumberOr qUserId 1) p (jsNumberOr qDays 7)) = none) :
    apiStats oracle now fuel st qUserId qDays (some p) = some (.noStats p, st) := by
  simp only [allPlatforms, List.mem_cons, List.not_mem_nil, or_false, not_or] at hp
  have hfield : ∀ k : ApiKey, apiKeyField k p = none := by
    intro k
    simp [apiKeyField, hp.1, hp.2.1, hp.2.2.1, hp.2.2.2]
  have hcred : storedCredential st (jsNumberOr qUserId 1) p = none := by
    unfold storedCredential
    cases hk : getApiKeys st (jsNumberOr qUserId 1) with
    | none => rfl
    | some k => simp [hfield k, truthyStr]
  have hs : storageGetPlatformStats oracle now fuel st (jsNumberOr qUserId 1) p
      (jsNumberOr qDays 7) = some (none, st) := by
    simp only [storageGetPlatformStats, hcred, hcache]
  have hgate' : ¬(u.isPro = false ∧ 7 < jsNumberOr qDays 7) := by
    rcases hgate with h | h
    · simp [h]
    · intro hc; exact absurd hc.2 (by omega)
  simp only [apiStats, huser, hgate', if_false, truthyStr, if_neg hpT, if_neg hpAll, hs]

/-- Witness for C10: platform "tiktok" for the walkthrough user at
days = 7. -/
theorem unsupported_platform_404_witness :
    ("tiktok" ∉ allPlatforms) ∧
    mapGet user1Store.socialStats (mkKey 1 "tiktok" 7) = none ∧
    apiStats failingOracle 0 0 user1Store (some 1) (some 7) (some "tiktok") =
      some (.noStats "tiktok", user1Store) :=
  ⟨by decide, by rfl,
   unsupported_platform_404 failingOracle 0 0 user1Store (some 1) (some 7) "tiktok"
     (createUser (initialStore 0) scenarioInsert 0).1
     (by decide) (by decide) (by decide) (by rfl) (Or.inr (by decide)) (by rfl)⟩

/-- `user1Store` with an existing youtube credential row for user 1
while the user's first-login flag is still true. -/
def preKeyedStore : MemStorage :=
  { user1Store with platformApiKeys :=
      [(1, { id := 1, userId := 1, youtubeKey := some "Y", instagramKey := none,
             twitterKey := none, facebookKey := none })] }

/-- C6 counterexample: a successful POST /api/apikeys taking the
update path (a credential row already exists) answers 200 with the
merged row but leaves the user's isFirstLogin flag true — the
flag-clearing side effect exists only on the create path, refuting
"for every successful request, both paths, the flag is false
afterwards". -/
theorem update_path_keeps_firstLogin :
    (getUser preKeyedStore 1).map User.isFirstLogin = some true ∧
    (postApiKeys preKeyedStore { userId := 1, twitterKey := some (some "T") }).1 =
      .updated { id := 1, userId := 1, youtubeKey := some "Y", instagramKey := none,
                 twitterKey := some "T", facebookKey := none } ∧
    (getUser (postApiKeys preKeyedStore
        { userId := 1, twitterKey := some (some "T") }).2 1).map User.isFirstLogin =
      some true :=
  ⟨by rfl, by rfl, by rfl⟩

/-- C6 (amended): a successful POST /api/apikeys creates-or-updates
the credential set, but clears isFirstLogin only on the create path:
with no existing row the handler answers 201 with the fresh row and
an existing user's isFirstLogin is false afterwards; with an existing
row it answers 200 with the merged row and leaves the users table
untouched. -/
theorem postApiKeys_paths (st : MemStorage) (body : InsertApiKey) :
    (getApiKeys st body.userId = none →
      (postApiKeys st body).1 = .created (saveApiKeys st body).1 ∧
      (∀ u, getUser st body.userId = some u →
        (getUser (postApiKeys st body).2 body.userId).map User.isFirstLogin =
          some false)) ∧
    (∀ row, getApiKeys st body.userId = some row →
      (postApiKeys st body).1 = .updated (mergeApiKey row body) ∧
      (postApiKeys st body).2.users = st.users) := by
  constructor
  · intro hnone
    constructor
    · simp only [postApiKeys, hnone]
    · intro u hu
      have hu' : mapGet (saveApiKeys st body).2.users body.userId = some u := hu
      simp only [postApiKeys, hnone, updateUser, getUser, hu']
      rw [mapGet_mapSet]
      rfl
  · intro row hrow
    have hrow' : (mapValues st.platformApiKeys).find?
        (fun k => decide (k.userId = body.userId)) = some row := hrow
    constructor
    · simp only [postApiKeys, hrow, updateApiKeys, hrow']
    · simp only [postApiKeys, hrow, updateApiKeys, hrow']

/-- Witness for the amended C6: the walkthrough user has no
credential row; the create path answers 201 and the flag is false. -/
theorem postApiKeys_paths_witness :
    getApiKeys user1Store 1 = none ∧
    (postApiKeys user1Store { userId := 1, youtubeKey := some (some "Y") }).1 =
      .created (saveApiKeys user1Store { userId := 1, youtubeKey := some (some "Y") }).1 ∧
    (getUser (postApiKeys user1Store
        { userId := 1, youtubeKey := some (some "Y") }).2 1).map User.isFirstLogin =
      some false := by
  have h := (postApiKeys_paths user1Store { userId := 1, youtubeKey := some (some "Y") }).1
    (by rfl)
  exact ⟨by rfl, h.1, h.2 (createUser (initialStore 0) scenarioInsert 0).1 (by rfl)⟩

/-- The id discipline of the users map: every stored user id is below
the running counter. -/
def usersWellFormed (st : MemStorage) : Prop :=
  ∀ p ∈ st.users, p.1 < st.currentUserId

/-- C9: for every insert payload, `createUser` returns a record with
isPro=false, isFirstLogin=true, lastLogin=the creation instant, and
the current counter as id; under the id discipline (true of a fresh
store and preserved by the operation) that id is absent from the map,
the record is stored under it, every other record is untouched —
creating a user never overwrites an existing user record. -/
theorem createUser_fresh_id
    (st : MemStorage) (ins : InsertUser) (now : Int)
    (hwf : usersWellFormed st) :
    (createUser st ins now).1.isPro = false ∧
    (createUser st ins now).1.isFirstLogin = true ∧
    (createUser st ins now).1.lastLogin = some now ∧
    (createUser st ins now).1.id = st.currentUserId ∧
    getUser st (createUser st ins now).1.id = none ∧
    getUser (createUser st ins now).2 (createUser st ins now).1.id =
      some (createUser st ins now).1 ∧
    (∀ k, k ≠ (createUser st ins now).1.id →
      getUser (createUser st ins now).2 k = getUser st k) ∧
    usersWellFormed (createUser st ins now).2 := by
  refine ⟨rfl, rfl, rfl, rfl, ?_, ?_, ?_, ?_⟩
  · show mapGet st.users st.currentUserId = none
    exact mapGet_eq_none _ _ (fun p hp => by have := hwf p hp; omega)
  · exact mapGet_mapSet st.users st.currentUserId _
  · intro k hk
    exact mapGet_mapSet_ne st.users st.currentUserId k _ hk
  · intro p hp
    rcases mem_mapSet hp with h | h
    · rw [h]; show st.currentUserId < st.currentUserId + 1; omega
    · have := hwf p h; show p.1 < st.currentUserId + 1; omega

/-- Witness for C9 on the fresh store at instant 3. -/
theorem createUser_fresh_id_witness :
    usersWellFormed (initialStore 0) ∧
    (createUser (initialStore 0) scenarioInsert 3).1.isPro = false ∧
    (createUser (initialStore 0) scenarioInsert 3).1.isFirstLogin = true ∧
    (createUser (initialStore 0) scenarioInsert 3).1.lastLogin = some 3 ∧
    getUser (initialStore 0) (createUser (initialStore 0) scenarioInsert 3).1.id = none := by
  have hwf : usersWellFormed (initialStore 0) := by
    intro p hp
    simp [initialStore] at hp
  have h := createUser_fresh_id (initialStore 0) scenarioInsert 3 hwf
  exact ⟨hwf, h.1, h.2.1, h.2.2.1, h.2.2.2.2.1⟩

/-! ## Pagination lemmas -/

theorem jsSlice_nonneg {α : Type} (l : List α) (s e : Int) (hs : 0 ≤ s) (hse : s ≤ e) :
    jsSlice l s e = (l.drop s.toNat).take (e - s).toNat := by
  unfold jsSlice
  simp only [if_neg (show ¬s < 0 by omega), if_neg (show ¬e < 0 by omega)]
  rcases le_or_lt s (l.length : Int) with hsn | hsn
  · rw [min_eq_left hsn]
    rcases le_or_lt e (l.length : Int) with hen | hen
    · rw [min_eq_left hen]
    · rw [min_eq_right (le_of_lt hen)]
      have hlen : (l.drop s.toNat).length = l.length - s.toNat := List.length_drop s.toNat l
      rw [List.take_of_length_le (by omega), List.take_of_length_le (by omega)]
  · rw [min_eq_right (le_of_lt hsn)]
    have h1 : l.drop ((l.length : Int)).toNat = [] := by
      rw [Int.toNat_natCast]
      exact List.drop_length l
    have h2 : l.drop s.toNat = [] := List.drop_eq_nil_of_le (by omega)
    rw [h1, h2, List.take_nil, List.take_nil]

theorem pages_flatten {α : Type} (l : List α) (lim : Nat) (n : Nat) :
    ((List.range n).map (fun i => (l.drop (i * lim)).take lim)).flatten =
      l.take (n * lim) := by
  induction n with
  | zero => simp
  | succ m ih =>
      rw [List.range_succ, List.map_append, List.flatten_append, ih]
      simp only [List.map_cons, List.map_nil, List.flatten_cons, List.flatten_nil,
        List.append_nil]
      rw [← List.take_add]
      congr 1
      ring

/-- The pagination contract of `getPosts(platform='all')`, relative
to the flattened gather `allPosts` and the store `st'` it leaves:
the sorted sequence is a descending-by-`datePosted` permutation of
the gather; every page request (positive page and limit) returns the
corresponding slice of it — of length at most `limit` — together
with `total` = its length and the same final store; and the
concatenation of pages 1..n is its (n·limit)-prefix, the whole
sequence once n·limit covers its length, so each post appears
exactly once across the pages. -/
def paginatesSorted (oracle : Int → String → Int → Except String ExtendedSocialStats)
    (now : Int) (fuel : Nat) (st : MemStorage) (userId days : Int)
    (allPosts : List PostOut) (st' : MemStorage) : Prop :=
  List.Sorted postDesc (allPosts.insertionSort postDesc) ∧
  (allPosts.insertionSort postDesc).Perm allPosts ∧
  ∀ limit : Nat, 1 ≤ limit →
    (∀ page : Nat, 1 ≤ page →
      getPosts oracle now fuel st userId "all" days (page : Int) (limit : Int) =
        some ((((allPosts.insertionSort postDesc).drop ((page - 1) * limit)).take limit,
          ((allPosts.insertionSort postDesc).length : Int)), st') ∧
      (((allPosts.insertionSort postDesc).drop ((page - 1) * limit)).take limit).length ≤
        limit) ∧
    (∀ n : Nat,
      ((List.range n).map
        (fun i => ((allPosts.insertionSort postDesc).drop (i * limit)).take limit)).flatten =
        (allPosts.insertionSort postDesc).take (n * limit)) ∧
    (∀ n : Nat, (allPosts.insertionSort postDesc).length ≤ n * limit →
      ((List.range n).map
        (fun i => ((allPosts.insertionSort postDesc).drop (i * limit)).take limit)).flatten =
        allPosts.insertionSort postDesc)

/-- C4: whenever the gathering pass of `getPosts(platform='all')`
over the four platforms terminates with the flattened list
`allPosts` (leaving store `st'`), the listing satisfies the full
pagination contract `paginatesSorted`: pages are slices of the
descending stable sort of the flatten, each of length at most the
limit, and their concatenation in page order reconstructs the whole
sorted sequence with each post exactly once. -/
theorem getPosts_all_paginates
    (oracle : Int → String → Int → Except String ExtendedSocialStats)
    (now : Int) (fuel : Nat) (st : MemStorage) (userId days : Int)
    (allPosts : List PostOut) (st' : MemStorage)
    (hloop : postsLoop oracle now fuel (getApiKeys st userId) userId days allPlatforms st =
      some (allPosts, st')) :
    paginatesSorted oracle now fuel st userId days allPosts st' := by
  refine ⟨List.sorted_insertionSort postDesc allPosts,
    List.perm_insertionSort postDesc allPosts, ?_⟩
  intro limit hlim
  refine ⟨?_, fun n => pages_flatten _ limit n, ?_⟩
  · intro page hpage
    constructor
    · show (match postsLoop oracle now fuel (getApiKeys st userId) userId days
          (if "all" = "all" then allPlatforms else ["all"]) st with
        | none => none
        | some (allPosts, st') =>
          some ((jsSlice (allPosts.insertionSort postDesc)
              (((page : Int) - 1) * (limit : Int))
              (((page : Int) - 1) * (limit : Int) + (limit : Int)),
            ((allPosts.insertionSort postDesc).length : Int)), st')) = _
      rw [if_pos rfl, hloop]
      dsimp only
      have hc : ((page : Int) - 1) = (((page - 1 : Nat)) : Int) := by omega
      have e1 : (((page : Int) - 1) * (limit : Int)) = (((page - 1) * limit : Nat) : Int) := by
        rw [hc, ← Nat.cast_mul]
      rw [jsSlice_nonneg (allPosts.insertionSort postDesc)
        (((page : Int) - 1) * (limit : Int))
        (((page : Int) - 1) * (limit : Int) + (limit : Int))
        (by rw [e1]; exact Int.natCast_nonneg _)
        (by omega)]
      rw [show ((((page : Int) - 1) * (limit : Int))).toNat = (page - 1) * limit from by
        rw [e1, Int.toNat_natCast]]
      rw [show (((page : Int) - 1) * (limit : Int) + (limit : Int) -
          ((page : Int) - 1) * (limit : Int)).toNat = limit from by omega]
    · simp only [List.length_take]
      exact Nat.min_le_left _ _
  · intro n hn
    rw [pages_flatten _ limit n, List.take_of_length_le hn]

/-- The flattened gather of the walkthrough store: the seeded posts
of the four platforms in order, tagged with an undefined connected
flag. -/
def gatheredPosts : List PostOut :=
  ((ytSeed 0).posts ++ (igSeed 0).posts ++ (twSeed 0).posts ++ (fbSeed 0).posts).map
    (fun q => ⟨q, none⟩)

/-- Witness for C4 on the walkthrough store. -/
theorem getPosts_all_paginates_witness :
    postsLoop failingOracle 0 0 (getApiKeys user1Store 1) 1 7 allPlatforms user1Store =
      some (gatheredPosts, user1Store) ∧
    paginatesSorted failingOracle 0 0 user1Store 1 7 gatheredPosts user1Store :=
  ⟨by rfl,
   getPosts_all_paginates failingOracle 0 0 user1Store 1 7 gatheredPosts user1Store (by rfl)⟩
